import Mathlib

/-!
Verification development for the blockchain-from-scratch consensus framework.

Shallow embedding of the repository's data model and operations:
the batched-extrinsics header/block chain (src/src/c2_blockchain/p4_batched_extrinsics.rs),
the fork-choice rules (src/src/c2_blockchain/p5_fork_choice.rs), and the consensus
engines (src/src/c3_consensus/).

Machine integers (u64) are modelled as Nat; where overflow matters the
operation is made explicit (checked arithmetic returning Option models the
debug-mode overflow panic, `% 2^64` models wrapping).  The external
commitment function `crate::hash` is a parameter `hashFn : Header → Nat`
of every operation that consults it; concrete evaluations instantiate it
with explicit model functions, which is admissible because the spec
constrains the commitment function only to be deterministic.
-/

/-- u64::max_value() . -/
def U64MAX : Nat := 2 ^ 64 - 1

namespace C2

/-- THRESHOLD from p4_batched_extrinsics.rs / p5_fork_choice.rs:
u64::max_value() / 100 . -/
def THRESHOLD : Nat := U64MAX / 100

/-- Header from src/src/c2_blockchain/p4_batched_extrinsics.rs: parent hash,
height, extrinsics root, state, and a u64 consensus digest (PoW nonce). -/
structure Header where
  parent : Nat
  height : Nat
  extrinsics_root : Nat
  state : Nat
  consensus_digest : Nat
deriving DecidableEq

/-- Header::genesis(): the all-zero header. -/
def Header.genesis : Header := ⟨0, 0, 0, 0, 0⟩

/-- Header::verify_child: child.parent == hash(self) && child.height == self.height + 1.
The height increment is u64 (wrapping in release builds), hence the `% 2^64`. -/
def Header.verify_child (hashFn : Header → Nat) (self child : Header) : Bool :=
  child.parent == hashFn self && child.height == (self.height + 1) % 2 ^ 64

/-- The loop body of Header::verify_sub_chain: check every consecutive pair
inside the given chain (indices i-1, i for i in 1..len). -/
def verifyPairs (hashFn : Header → Nat) : List Header → Bool
  | a :: b :: rest => Header.verify_child hashFn a b && verifyPairs hashFn (b :: rest)
  | _ => true

/-- Header::verify_sub_chain: iterates i in 1..chain.len() checking
chain[i-1].verify_child(chain[i]); the receiver `self` is never consulted. -/
def Header.verify_sub_chain (hashFn : Header → Nat) (self : Header)
    (chain : List Header) : Bool :=
  verifyPairs hashFn chain

/-- Block from p4_batched_extrinsics.rs: a header plus a body of extrinsics. -/
structure Block where
  header : Header
  body : List Nat
deriving DecidableEq

/-- Block::genesis(): genesis header, empty body. -/
def Block.genesis : Block := ⟨Header.genesis, []⟩

/-- Block::execute_exts: fold the extrinsics into the state by u64 addition. -/
def Block.execute_exts (prev_state : Nat) (exts : List Nat) : Nat :=
  exts.foldl (fun s e => (s + e) % 2 ^ 64) prev_state

/-- Block::verify_block_child: header linkage and state-transition check. -/
def Block.verify_block_child (hashFn : Header → Nat) (parent child : Block) : Bool :=
  Header.verify_child hashFn parent.header child.header &&
    child.header.state == Block.execute_exts parent.header.state child.body

/-- The loop body of Block::verify_sub_chain: check every consecutive pair
inside the given chain (indices i, i+1 for i in 0..len-1). -/
def blockPairs (hashFn : Header → Nat) : List Block → Bool
  | a :: b :: rest => Block.verify_block_child hashFn a b && blockPairs hashFn (b :: rest)
  | _ => true

/-- Block::verify_sub_chain: first checks verify_block_child(self, chain[0]),
then every consecutive pair.  The source indexes chain[0] unconditionally, so
the empty chain is an index-out-of-bounds panic: modelled as none. -/
def Block.verify_sub_chain (hashFn : Header → Nat) (self : Block)
    (chain : List Block) : Option Bool :=
  match chain with
  | [] => none
  | c0 :: rest =>
      some (Block.verify_block_child hashFn self c0 && blockPairs hashFn (c0 :: rest))

/-- ForkChoice::best_chain, the provided (default) trait implementation from
p5_fork_choice.rs: start from candidate_chains[0] and fold the pairwise
comparator left to right; candidate_chains[0] on an empty list panics (none). -/
def ForkChoice.best_chain (better : List Header → List Header → Bool)
    (cands : List (List Header)) : Option (List Header) :=
  match cands with
  | [] => none
  | c :: rest => some (rest.foldl (fun best ci => if better best ci then best else ci) c)

/-- LongestChainRule::first_chain_is_better: chain_1.len() >= chain_2.len(). -/
def LongestChainRule.first_chain_is_better (c1 c2 : List Header) : Bool :=
  decide (c2.length ≤ c1.length)

/-- The loop of LongestChainRule::best_chain: track the running best chain and
its recorded length (the source tracks best_index; the chain at that index is
carried directly). -/
def lcrLoop : List (List Header) → List Header → Nat → List Header
  | [], best, _ => best
  | c :: rest, best, bestLen =>
      if bestLen < c.length then lcrLoop rest c c.length
      else lcrLoop rest best bestLen

/-- LongestChainRule::best_chain, the overridden single-pass implementation:
start from candidate_chains[0] and replace the best exactly when a candidate is
strictly longer.  candidate_chains[0] on an empty list panics (none). -/
def LongestChainRule.best_chain (cands : List (List Header)) : Option (List Header) :=
  match cands with
  | [] => none
  | c :: rest => some (lcrLoop rest c c.length)

/-- u64 checked subtraction: none models the debug-mode subtract-with-overflow
panic that Rust raises when b > a. -/
def checkedSub (a b : Nat) : Option Nat :=
  if b ≤ a then some (a - b) else none

/-- u64 checked addition: none models the debug-mode add-with-overflow panic. -/
def checkedAdd (a b : Nat) : Option Nat :=
  if a + b ≤ U64MAX then some (a + b) else none

/-- The accumulation loop of HeaviestChainRule::first_chain_is_better:
weight += THRESHOLD - hash(header), in u64 arithmetic. -/
def chainWeight (hashFn : Header → Nat) (chain : List Header) : Option Nat :=
  chain.foldl
    (fun acc h => acc.bind fun w => (checkedSub THRESHOLD (hashFn h)).bind (checkedAdd w))
    (some 0)

/-- HeaviestChainRule::first_chain_is_better: weight_1 >= weight_2, where each
weight is the u64 sum of THRESHOLD - hash(header) over the chain. -/
def HeaviestChainRule.first_chain_is_better (hashFn : Header → Nat)
    (c1 c2 : List Header) : Option Bool :=
  (chainWeight hashFn c1).bind fun w1 =>
    (chainWeight hashFn c2).map fun w2 => decide (w2 ≤ w1)

/-- The accumulation loop of MostBlocksWithEvenHash::first_chain_is_better:
count += 1 - (hash(header) & 1). -/
def evenLoopCount (hashFn : Header → Nat) (chain : List Header) : Nat :=
  chain.foldl (fun acc h => acc + (1 - (hashFn h &&& 1))) 0

/-- MostBlocksWithEvenHash::first_chain_is_better: count_1 > count_2 (strict). -/
def MostBlocksWithEvenHash.first_chain_is_better (hashFn : Header → Nat)
    (c1 c2 : List Header) : Bool :=
  decide (evenLoopCount hashFn c2 < evenLoopCount hashFn c1)

/-- The number of headers in a chain whose commitment is even. -/
def countEven (hashFn : Header → Nat) (chain : List Header) : Nat :=
  chain.countP (fun h => hashFn h % 2 == 0)

end C2

namespace C3

/-- Modelled from the spec: the generic Header<Digest> type (defined in the
consensus module file that is not under src/; shape per the spec's data model:
parent, height, state_root, extrinsics_root, consensus_digest). -/
structure Header (Digest : Type) where
  parent : Nat
  height : Nat
  state_root : Nat
  extrinsics_root : Nat
  consensus_digest : Digest
deriving DecidableEq

/-- Modelled from the spec: Header::convert_to_digest, turning a partial
header (unit digest) into a full header carrying the given digest, all other
fields unchanged. -/
def Header.convert_to_digest {D : Type} (h : Header Unit) (d : D) : Header D :=
  ⟨h.parent, h.height, h.state_root, h.extrinsics_root, d⟩

/-- Map the digest of a header across a conversion function, all other fields
unchanged (the field-by-field header rebuilds of p6_forking.rs). -/
def convertHeader {D E : Type} (f : D → E) (h : Header D) : Header E :=
  ⟨h.parent, h.height, h.state_root, h.extrinsics_root, f h.consensus_digest⟩

/-- Modelled from the spec: the Consensus trait (defined in the consensus
module file that is not under src/): an engine exposes exactly validate and
seal over its associated Digest type. -/
structure ConsensusEngine (Digest : Type) where
  validate : Digest → Header Digest → Bool
  «seal» : Digest → Header Unit → Option (Header Digest)

/-- Modelled from the spec: ConsensusAuthority, a closed enumeration of a
small fixed set of named signers (defined in the consensus module file that is
not under src/). -/
inductive ConsensusAuthority where
  | Alice
  | Bob
  | Charlie
deriving DecidableEq

/-- Modelled from the spec: ConsensusAuthority::from_index, the total
deterministic round-robin-by-position mapping from an index to an authority. -/
def ConsensusAuthority.from_index (n : Nat) : ConsensusAuthority :=
  match n % 3 with
  | 0 => ConsensusAuthority.Alice
  | 1 => ConsensusAuthority.Bob
  | _ => ConsensusAuthority.Charlie

/-- PoW::validate from p1_pow.rs: header.consensus_digest < self.threshold.
Note the comparison is on the nonce digest itself; the hash of the header is
never computed here. -/
def PoW.validate (threshold : Nat) (_parent : Nat) (header : Header Nat) : Bool :=
  decide (header.consensus_digest < threshold)

/-- SimplePoa from p3_poa.rs. -/
structure SimplePoa where
  authorities : List ConsensusAuthority

/-- SimplePoa::validate: the digest's signer is a member of the authority set. -/
def SimplePoa.validate (e : SimplePoa) (_parent : ConsensusAuthority)
    (header : Header ConsensusAuthority) : Bool :=
  e.authorities.contains header.consensus_digest

/-- SimplePoa::seal: unconditionally signs as Alice. -/
def SimplePoa.seal (_e : SimplePoa) (_parent : ConsensusAuthority)
    (ph : Header Unit) : Option (Header ConsensusAuthority) :=
  some (ph.convert_to_digest ConsensusAuthority.Alice)

/-- PoaRoundRobinByHeight::validate from p3_poa.rs: the digest equals
from_index(header.height). -/
def PoaRoundRobinByHeight.validate (_parent : ConsensusAuthority)
    (header : Header ConsensusAuthority) : Bool :=
  header.consensus_digest == ConsensusAuthority.from_index header.height

/-- PoaRoundRobinByHeight::seal: sign as from_index(partial_header.height). -/
def PoaRoundRobinByHeight.seal (_parent : ConsensusAuthority)
    (ph : Header Unit) : Option (Header ConsensusAuthority) :=
  some (ph.convert_to_digest (ConsensusAuthority.from_index ph.height))

/-- SlotDigest from p3_poa.rs: a slot number plus the signing authority. -/
structure SlotDigest where
  slot : Nat
  signature : ConsensusAuthority
deriving DecidableEq

/-- PoaRoundRobinBySlot::validate: the slot strictly exceeds the parent's slot
and the signer is from_index(slot). -/
def PoaRoundRobinBySlot.validate (parent : SlotDigest)
    (header : Header SlotDigest) : Bool :=
  decide (parent.slot < header.consensus_digest.slot) &&
    (header.consensus_digest.signature
      == ConsensusAuthority.from_index header.consensus_digest.slot)

/-- PoaRoundRobinBySlot::seal: slot = parent.slot + 1, signed by
from_index(slot). -/
def PoaRoundRobinBySlot.seal (parent : SlotDigest)
    (ph : Header Unit) : Option (Header SlotDigest) :=
  some (ph.convert_to_digest
    ⟨parent.slot + 1, ConsensusAuthority.from_index (parent.slot + 1)⟩)

/-- Outcome of a call that may panic instead of returning: panics models an
unwrap on None / an unhandled case. -/
inductive SealOutcome (D : Type) where
  | panics
  | returns (r : Option (Header D))
deriving DecidableEq

/-- EvenOnly::validate from p4_even_only.rs: inner validity AND
header.state_root & 1 != 1. -/
def EvenOnly.validate {D : Type} (inner : ConsensusEngine D) (parent : D)
    (header : Header D) : Bool :=
  inner.validate parent header && (header.state_root &&& 1) != 1

/-- EvenOnly::seal as written in p4_even_only.rs: unwraps the inner seal
(panicking when it is None); when the inner seal succeeds, the source
evaluates `if self.validate(..) { Some(header); }` — the Some is a discarded
statement — and then returns None unconditionally. -/
def EvenOnly.seal {D : Type} (inner : ConsensusEngine D) (parent : D)
    (ph : Header Unit) : SealOutcome D :=
  match inner.seal parent ph with
  | none => SealOutcome.panics
  | some _h => SealOutcome.returns none

end C3

namespace C3

/-- Which from p5_interleave.rs: selects one of the two inner engines. -/
inductive Which where
  | First
  | Second
deriving DecidableEq

/-- DoubleHeader from p5_interleave.rs: a header carrying both engines'
digests. -/
structure DoubleHeader (D1 D2 : Type) where
  parent : Nat
  height : Nat
  state_root : Nat
  extrinsics_root : Nat
  consensus_digest : D1
  consensus_digest2 : D2
deriving DecidableEq

/-- DoubleHeader::to_header: project a double header onto an ordinary header
carrying the given digest. -/
def DoubleHeader.to_header {D1 D2 T : Type} (h : DoubleHeader D1 D2) (d : T) :
    Header T :=
  ⟨h.parent, h.height, h.state_root, h.extrinsics_root, d⟩

/-- DoubleEngine::validate_with_which: even height selects First, odd selects
Second. -/
def validate_with_which {D1 D2 : Type} (h : DoubleHeader D1 D2) : Which :=
  if h.height % 2 == 0 then Which.First else Which.Second

/-- DoubleEngine::validate from p5_interleave.rs: dispatch by
validate_with_which; d1 and d2 stand for the Default::default() digest values
the source passes as the (unused) parent digests. -/
def DoubleEngine.validate {D1 D2 : Type} (e1 : ConsensusEngine D1)
    (e2 : ConsensusEngine D2) (d1 : D1) (d2 : D2)
    (h : DoubleHeader D1 D2) : Bool :=
  match validate_with_which h with
  | Which.First => e1.validate d1 (h.to_header h.consensus_digest)
  | Which.Second => e2.validate d2 (h.to_header h.consensus_digest2)

/-- DoubleEngine::seal as written in p5_interleave.rs, reduced to the engine
it delegates to: the match on validate_with_which has a single arm, Which::First
(even heights), whose body calls self.1.«seal» — the SECOND inner engine; the
Which::Second arm exists only as commented-out text, so odd heights have no
behavior at all (the source match is non-exhaustive and the file does not
compile): modelled as none. -/
def DoubleEngine.sealEngineUsed {D1 D2 : Type} (ph : DoubleHeader D1 D2) :
    Option Which :=
  match validate_with_which ph with
  | Which.First => some Which.Second
  | Which.Second => none

/-- Forked from p6_forking.rs: a fork height, the two inner engines, and the
From/Into digest conversions required by the trait bounds (B::Digest:
Into<D> + From<D>, A::Digest: Into<D> + From<D>). -/
structure Forked (D DB DA : Type) where
  fork_height : Nat
  before : ConsensusEngine DB
  after : ConsensusEngine DA
  intoB : D → DB
  fromB : DB → D
  intoA : D → DA
  fromA : DA → D

/-- Forked::validate from p6_forking.rs: heights below the fork height are
validated by the "before" engine on the converted parent digest and header,
all others by the "after" engine. -/
def Forked.validate {D DB DA : Type} (e : Forked D DB DA) (parent : D)
    (header : Header D) : Bool :=
  if header.height < e.fork_height then
    e.before.validate (e.intoB parent) (convertHeader e.intoB header)
  else
    e.after.validate (e.intoA parent) (convertHeader e.intoA header)

/-- Forked::seal from p6_forking.rs: partial headers below the fork height are
sealed by the "before" engine and the produced digest converted back into the
shared representation; all others by the "after" engine likewise. -/
def Forked.seal {D DB DA : Type} (e : Forked D DB DA) (parent : D)
    (ph : Header Unit) : Option (Header D) :=
  if ph.height < e.fork_height then
    (e.before.«seal» (e.intoB parent) ph).map (convertHeader e.fromB)
  else
    (e.after.«seal» (e.intoA parent) ph).map (convertHeader e.fromA)

/-- PowOrPoaDigest from p6_forking.rs: a tagged union of a PoW nonce and a
PoA authority. -/
inductive PowOrPoaDigest where
  | Pow (nonce : Nat)
  | Poa (authority : ConsensusAuthority)
deriving DecidableEq

/-- From<u64> for PowOrPoaDigest. -/
def PowOrPoaDigest.ofU64 (d : Nat) : PowOrPoaDigest := PowOrPoaDigest.Pow d

/-- From<ConsensusAuthority> for PowOrPoaDigest. -/
def PowOrPoaDigest.ofAuthority (d : ConsensusAuthority) : PowOrPoaDigest :=
  PowOrPoaDigest.Poa d

/-- From<PowOrPoaDigest> for ConsensusAuthority: the Pow branch falls back to
the default authority (Alice). -/
def PowOrPoaDigest.toAuthority : PowOrPoaDigest → ConsensusAuthority
  | PowOrPoaDigest.Pow _ => ConsensusAuthority.Alice
  | PowOrPoaDigest.Poa a => a

/-- From<PowOrPoaDigest> for u64: the Poa branch falls back to u64::MIN. -/
def PowOrPoaDigest.toU64 : PowOrPoaDigest → Nat
  | PowOrPoaDigest.Pow n => n
  | PowOrPoaDigest.Poa _ => 0

/-- The SimplePoa engine packaged as a ConsensusEngine value. -/
def simplePoaEngine (auths : List ConsensusAuthority) :
    ConsensusEngine ConsensusAuthority :=
  ⟨SimplePoa.validate ⟨auths⟩, SimplePoa.seal ⟨auths⟩⟩

/-- change_authorities from p6_forking.rs: a Forked engine whose before/after
engines are SimplePoa with the initial and final authority sets; the digest
type does not change across the fork, so all four conversions are the
identity. -/
def change_authorities (fork_height : Nat)
    (initial final : List ConsensusAuthority) :
    Forked ConsensusAuthority ConsensusAuthority ConsensusAuthority :=
  ⟨fork_height, simplePoaEngine initial, simplePoaEngine final, id, id, id, id⟩

end C3

/-!
Concrete instances used by the closed evaluation theorems below.  The
commitment function is external to the repository (crate::hash); the spec
constrains it only to be a deterministic map to a 64-bit value, so any such
function is an admissible model of it.
-/

/-- Modelled from the spec: a commitment-function instance that maps every
header to 0 (deterministic, hence admissible). -/
def hashZero : C2.Header → Nat := fun _ => 0

/-- Modelled from the spec: a commitment-function instance that maps every
header to THRESHOLD + 1, i.e. every commitment lands just above the PoW
threshold. -/
def hashAboveThreshold : C2.Header → Nat := fun _ => C2.THRESHOLD + 1

/-- Modelled from the spec: a commitment-function instance on consensus
headers that maps every header to 10. -/
def hashTen : C3.Header Nat → Nat := fun _ => 10

/-- A partial header at height 1 with state_root 0. -/
def phC1 : C3.Header Unit := ⟨0, 1, 0, 0, ()⟩

/-- The header SimplePoa { authorities: [Bob] } seals from phC1: signed Alice. -/
def hdrC1 : C3.Header C3.ConsensusAuthority := ⟨0, 1, 0, 0, C3.ConsensusAuthority.Alice⟩

/-- A partial header at height 1 with even state_root 2. -/
def phC2 : C3.Header Unit := ⟨0, 1, 2, 0, ()⟩

/-- The header SimplePoa { authorities: [Alice] } seals from phC2. -/
def hdrC2 : C3.Header C3.ConsensusAuthority := ⟨0, 1, 2, 0, C3.ConsensusAuthority.Alice⟩

/-- An inner engine whose seal declines (returns None) on every input. -/
def noneSealEngine : C3.ConsensusEngine Nat :=
  ⟨fun _ _ => false, fun _ _ => none⟩

/-- A partial double header at even height 0. -/
def phC3 : C3.DoubleHeader Unit Unit := ⟨0, 0, 0, 0, (), ()⟩

/-- A PoW header whose nonce digest is 3. -/
def hdrC4 : C3.Header Nat := ⟨0, 1, 0, 0, 3⟩

/-- A header that is not a valid child of genesis (height 99, parent 99). -/
def strayHeader : C2.Header := ⟨99, 99, 0, 0, 0⟩

/-- A concrete Forked engine: change_authorities with fork height 5, initial
authorities [Alice], final authorities [Bob]. -/
def forkedC9 : C3.Forked C3.ConsensusAuthority C3.ConsensusAuthority C3.ConsensusAuthority :=
  C3.change_authorities 5 [C3.ConsensusAuthority.Alice] [C3.ConsensusAuthority.Bob]

/-- A full header below forkedC9's fork height. -/
def hdrLow : C3.Header C3.ConsensusAuthority := ⟨0, 3, 0, 0, C3.ConsensusAuthority.Alice⟩

/-- A full header at and above forkedC9's fork height. -/
def hdrHigh : C3.Header C3.ConsensusAuthority := ⟨0, 7, 0, 0, C3.ConsensusAuthority.Bob⟩

/-- A partial header below forkedC9's fork height. -/
def phLow : C3.Header Unit := ⟨0, 3, 0, 0, ()⟩

/-- A partial header at and above forkedC9's fork height. -/
def phHigh : C3.Header Unit := ⟨0, 7, 0, 0, ()⟩

/-!
Supporting lemmas.
-/

/-- The even-hash counting loop computes exactly the number of headers with an
even commitment. -/
theorem evenLoopCount_eq_countEven (hashFn : C2.Header → Nat) :
    ∀ (chain : List C2.Header) (acc : Nat),
      (chain.foldl (fun acc h => acc + (1 - (hashFn h &&& 1))) acc) =
        acc + C2.countEven hashFn chain := by
  intro chain
  induction chain with
  | nil => intro acc; simp [C2.countEven]
  | cons h t ih =>
      intro acc
      simp only [List.foldl_cons, C2.countEven, List.countP_cons]
      rw [ih]
      have hand : hashFn h &&& 1 = hashFn h % 2 := Nat.and_one_is_mod (hashFn h)
      rcases Nat.mod_two_eq_zero_or_one (hashFn h) with hpar | hpar <;>
        simp [C2.countEven, hand, hpar, List.countP] <;> omega

/-- The single-pass longest-chain loop computes the same left fold as the
default pairwise comparison, provided the recorded length is the length of the
recorded best chain. -/
theorem lcrLoop_eq_foldl :
    ∀ (rest : List (List C2.Header)) (best : List C2.Header),
      C2.lcrLoop rest best best.length =
        rest.foldl
          (fun b ci => if C2.LongestChainRule.first_chain_is_better b ci then b else ci)
          best := by
  intro rest
  induction rest with
  | nil => intro best; rfl
  | cons c t ih =>
      intro best
      simp only [C2.lcrLoop, List.foldl_cons]
      by_cases hle : c.length ≤ best.length
      · rw [if_neg (by omega)]
        rw [if_pos ?_]
        · exact ih best
        · simp [C2.LongestChainRule.first_chain_is_better, hle]
      · rw [if_pos (by omega)]
        rw [if_neg ?_]
        · exact ih c
        · simp [C2.LongestChainRule.first_chain_is_better]
          omega

/-- verifyPairs succeeds on every list whose consecutive elements satisfy
verify_child. -/
theorem verifyPairs_of_chain (hashFn : C2.Header → Nat) :
    ∀ chain : List C2.Header,
      List.Chain' (fun a b => C2.Header.verify_child hashFn a b = true) chain →
      C2.verifyPairs hashFn chain = true
  | [], _ => rfl
  | [_], _ => rfl
  | a :: b :: rest, h => by
      have h1 : C2.Header.verify_child hashFn a b = true := (List.chain'_cons.mp h).1
      have h2 := (List.chain'_cons.mp h).2
      simp [C2.verifyPairs, h1, verifyPairs_of_chain hashFn (b :: rest) h2]

/-!
Claim theorems.
-/

/-- C1: the seal/validate mutual-consistency contract fails on the code.
SimplePoa::seal unconditionally signs as Alice, so with the authority set
[Bob] it returns Some(header signed Alice) while validate rejects that very
header (Alice is not in the set), contradicting the contract that every
sealed header must validate. -/
theorem c1_simple_poa_seal_not_validated :
    C3.SimplePoa.seal ⟨[C3.ConsensusAuthority.Bob]⟩ C3.ConsensusAuthority.Bob phC1
      = some hdrC1 ∧
    C3.SimplePoa.validate ⟨[C3.ConsensusAuthority.Bob]⟩ C3.ConsensusAuthority.Bob hdrC1
      = false :=
  ⟨rfl, rfl⟩

/-- C2: EvenOnly::seal as written never returns a sealed header.  With inner
engine SimplePoa { authorities: [Alice] } and a partial header with even
state root, the inner seal succeeds and the combined predicate accepts the
sealed header, yet the code returns None (the Some is a discarded statement);
and when the inner seal declines, the code unwraps None and panics instead of
returning None. -/
theorem c2_even_only_seal_discards_valid_header :
    C3.EvenOnly.seal (C3.simplePoaEngine [C3.ConsensusAuthority.Alice])
        C3.ConsensusAuthority.Alice phC2 = C3.SealOutcome.returns none ∧
    (C3.simplePoaEngine [C3.ConsensusAuthority.Alice]).«seal»
        C3.ConsensusAuthority.Alice phC2 = some hdrC2 ∧
    C3.EvenOnly.validate (C3.simplePoaEngine [C3.ConsensusAuthority.Alice])
        C3.ConsensusAuthority.Alice hdrC2 = true ∧
    C3.EvenOnly.seal noneSealEngine 0 phC2 = C3.SealOutcome.panics :=
  ⟨rfl, rfl, rfl, rfl⟩

/-- C3: DoubleEngine::seal does not dispatch the way validate does.  At the
even-height partial header phC3, validate_with_which selects the first
engine, but the only match arm of seal delegates to the SECOND engine (and
odd heights have no arm at all), so seal does not match validate's parity
dispatch. -/
theorem c3_interleave_seal_wrong_engine :
    C3.validate_with_which phC3 = C3.Which.First ∧
    C3.DoubleEngine.sealEngineUsed phC3 = some C3.Which.Second :=
  ⟨rfl, rfl⟩

/-- C4: PoW::validate compares the nonce digest itself against the threshold
and never computes the commitment of the header, contradicting both the claim
and the function's own doc comment.  With threshold 5 the header hdrC4 (nonce
3) is accepted although its commitment under the model commitment function is
10, which is not below the threshold. -/
theorem c4_pow_validate_ignores_commitment :
    C3.PoW.validate 5 0 hdrC4 = true ∧ hashTen hdrC4 = 10 ∧ ¬ hashTen hdrC4 < 5 :=
  ⟨rfl, rfl, by decide⟩

/-- C5: Block::verify_sub_chain on the empty continuation does not return
true: the source indexes chain[0] unconditionally, which panics on an empty
slice (modelled as none), for every block and in particular for genesis. -/
theorem c5_block_verify_sub_chain_empty_panics :
    ∀ hashFn : C2.Header → Nat, ∀ b : C2.Block,
      C2.Block.verify_sub_chain hashFn b [] = none ∧
      C2.Block.verify_sub_chain hashFn C2.Block.genesis [] ≠ some true :=
  fun _ _ => ⟨rfl, by simp [C2.Block.verify_sub_chain]⟩

/-- C6 counterexample: on two identical singleton chains the even-commitment
counts are tied, so the claim predicts first_chain_is_better = true, but the
code's strict comparison returns false. -/
theorem c6_most_even_tie_counterexample :
    ¬ (C2.MostBlocksWithEvenHash.first_chain_is_better hashZero
          [C2.Header.genesis] [C2.Header.genesis] = true ↔
        (C2.countEven hashZero [C2.Header.genesis] <
            C2.countEven hashZero [C2.Header.genesis] ∨
          C2.countEven hashZero [C2.Header.genesis] =
            C2.countEven hashZero [C2.Header.genesis])) := by
  decide

/-- C6 amended: MostBlocksWithEvenHash::first_chain_is_better returns true
iff the first chain has STRICTLY more headers with even commitment than the
second; on tied counts it returns false (so ties favor the second argument),
for every commitment function and all chains. -/
theorem c6_most_even_strict (hashFn : C2.Header → Nat) (c1 c2 : List C2.Header) :
    C2.MostBlocksWithEvenHash.first_chain_is_better hashFn c1 c2 = true ↔
      C2.countEven hashFn c2 < C2.countEven hashFn c1 := by
  unfold C2.MostBlocksWithEvenHash.first_chain_is_better C2.evenLoopCount
  rw [evenLoopCount_eq_countEven hashFn c1 0, evenLoopCount_eq_countEven hashFn c2 0]
  simp

/-- C7: HeaviestChainRule's per-header work THRESHOLD - commitment(header) is
u64 subtraction, not exact integer arithmetic: on a chain containing a header
whose commitment is THRESHOLD + 1 the subtraction overflows — a debug-mode
panic, modelled as none (in release it wraps to 2^64 - 1) — instead of
producing the exact comparison the claim requires. -/
theorem c7_heaviest_chain_overflow_panics :
    C2.HeaviestChainRule.first_chain_is_better hashAboveThreshold
        [C2.Header.genesis] [] = none ∧
    C2.THRESHOLD < hashAboveThreshold C2.Header.genesis := by
  constructor
  · rfl
  · simp [hashAboveThreshold]

/-- C8: LongestChainRule's overridden single-pass best_chain agrees with the
default generic implementation (the left fold of pairwise
first_chain_is_better comparisons) on every non-empty candidate list. -/
theorem c8_longest_best_chain_refines (cands : List (List C2.Header))
    (h : cands ≠ []) :
    C2.LongestChainRule.best_chain cands =
      C2.ForkChoice.best_chain C2.LongestChainRule.first_chain_is_better cands := by
  match cands with
  | [] => exact absurd rfl h
  | c :: rest =>
      simp only [C2.LongestChainRule.best_chain, C2.ForkChoice.best_chain]
      rw [lcrLoop_eq_foldl rest c]

/-- C8 witness: the refinement evaluated on the concrete candidate list
[[genesis], []]. -/
theorem c8_longest_best_chain_refines_witness :
    C2.LongestChainRule.best_chain [[C2.Header.genesis], []] =
      C2.ForkChoice.best_chain C2.LongestChainRule.first_chain_is_better
        [[C2.Header.genesis], []] :=
  c8_longest_best_chain_refines [[C2.Header.genesis], []] (List.cons_ne_nil _ _)

/-- C9: Forked dispatches validate and seal by height against the fork
height: below the fork height the "before" engine is consulted on the
converted parent digest and header (and the produced digest converted back),
at or above it the "after" engine, for every choice of inner engines and
digest conversions. -/
theorem c9_forked_dispatch {D DB DA : Type} (e : C3.Forked D DB DA) (pd : D)
    (h : C3.Header D) (ph : C3.Header Unit) :
    (h.height < e.fork_height →
      C3.Forked.validate e pd h =
        e.before.validate (e.intoB pd) (C3.convertHeader e.intoB h)) ∧
    (e.fork_height ≤ h.height →
      C3.Forked.validate e pd h =
        e.after.validate (e.intoA pd) (C3.convertHeader e.intoA h)) ∧
    (ph.height < e.fork_height →
      C3.Forked.seal e pd ph =
        (e.before.«seal» (e.intoB pd) ph).map (C3.convertHeader e.fromB)) ∧
    (e.fork_height ≤ ph.height →
      C3.Forked.seal e pd ph =
        (e.after.«seal» (e.intoA pd) ph).map (C3.convertHeader e.fromA)) := by
  refine ⟨fun hlt => ?_, fun hge => ?_, fun hlt => ?_, fun hge => ?_⟩
  · simp [C3.Forked.validate, hlt]
  · simp [C3.Forked.validate, Nat.not_lt.mpr hge]
  · simp [C3.Forked.seal, hlt]
  · simp [C3.Forked.seal, Nat.not_lt.mpr hge]

/-- C9 witness: the dispatch evaluated on the concrete change_authorities
engine forkedC9 (fork height 5), at heights 3 (before) and 7 (after). -/
theorem c9_forked_dispatch_witness :
    C3.Forked.validate forkedC9 C3.ConsensusAuthority.Alice hdrLow =
      forkedC9.before.validate C3.ConsensusAuthority.Alice
        (C3.convertHeader forkedC9.intoB hdrLow) ∧
    C3.Forked.validate forkedC9 C3.ConsensusAuthority.Alice hdrHigh =
      forkedC9.after.validate C3.ConsensusAuthority.Alice
        (C3.convertHeader forkedC9.intoA hdrHigh) ∧
    C3.Forked.seal forkedC9 C3.ConsensusAuthority.Alice phLow =
      (forkedC9.before.«seal» C3.ConsensusAuthority.Alice phLow).map
        (C3.convertHeader forkedC9.fromB) ∧
    C3.Forked.seal forkedC9 C3.ConsensusAuthority.Alice phHigh =
      (forkedC9.after.«seal» C3.ConsensusAuthority.Alice phHigh).map
        (C3.convertHeader forkedC9.fromA) :=
  ⟨(c9_forked_dispatch forkedC9 C3.ConsensusAuthority.Alice hdrLow phLow).1
      (by decide),
   (c9_forked_dispatch forkedC9 C3.ConsensusAuthority.Alice hdrHigh phHigh).2.1
      (by decide),
   (c9_forked_dispatch forkedC9 C3.ConsensusAuthority.Alice hdrLow phLow).2.2.1
      (by decide),
   (c9_forked_dispatch forkedC9 C3.ConsensusAuthority.Alice hdrHigh phHigh).2.2.2
      (by decide)⟩

/-- C10: Header::verify_sub_chain checks only the linkage between consecutive
elements of the given chain: whenever every consecutive pair satisfies
verify_child (vacuously so for empty and singleton chains), it returns true
for EVERY receiver header — the chain's first header is never checked to be a
child of self. -/
theorem c10_header_sub_chain_ignores_receiver (hashFn : C2.Header → Nat)
    (chain : List C2.Header)
    (hpairs : List.Chain' (fun a b => C2.Header.verify_child hashFn a b = true) chain) :
    ∀ self : C2.Header, C2.Header.verify_sub_chain hashFn self chain = true :=
  fun _ => verifyPairs_of_chain hashFn chain hpairs

/-- C10 witness: a singleton chain whose sole header is unrelated to genesis
still verifies from genesis. -/
theorem c10_header_sub_chain_ignores_receiver_witness :
    C2.Header.verify_sub_chain hashZero C2.Header.genesis [strayHeader] = true :=
  c10_header_sub_chain_ignores_receiver hashZero [strayHeader]
    (List.chain'_singleton strayHeader) C2.Header.genesis
